import Mathlib

/-!
Verification development for the CSEEW earthquake early-warning page
(`src/CSEEW/eew.js`).

JavaScript numbers are modelled as exact rationals (`ℚ`); the special values
`undefined`, `null` and `NaN` that flow through the code are modelled by a
dedicated inductive type.  `Math.log10` is abstracted as a function parameter
`log10 : ℚ → ℚ` (the claims that depend on its value only use `log10 10 = 1`).

The reconciler state (the `activeEewAlerts` and `activeWaveAnimations` maps,
the banner container, the scheduled timers and animation frames, the objects
on the map and the map viewport) is modelled explicitly; `setTimeout` /
`requestAnimationFrame` return fresh identifiers drawn from a counter, and a
pending timer or frame is one whose identifier is in the corresponding list.
Banner removal after a CSS transition is modelled as immediate removal
(the core only needs eventually-removed semantics for banners).

Date.now/Math.random based identifier synthesis is modelled by an explicit
`fresh : String` parameter; the claims only exercise snapshots that carry an
explicit `EventID`.
-/

/-- JavaScript values flowing through the numeric fields of the code:
`undefined`, `null`, `NaN`, or an ordinary value whose numeric parse is
exactly the rational `q` (string fields are represented by their
`parseFloat` image). -/
inductive JsRaw where
  | undef
  | null
  | nan
  | num (q : ℚ)
deriving DecidableEq, Repr

/-- JavaScript global `isNaN` (applies `Number` coercion first):
`isNaN(undefined) = true`, `isNaN(null) = false` (since `Number(null) = 0`),
`isNaN(NaN) = true`, and `false` on finite numbers. -/
def jsIsNaN : JsRaw → Bool
  | .undef => true
  | .null => false
  | .nan => true
  | .num _ => false

/-- JavaScript truthiness of such a value: `0`, `NaN`, `null`, `undefined`
are falsy, every other number is truthy. -/
def jsTruthy : JsRaw → Bool
  | .num q => decide (q ≠ 0)
  | _ => false

/-- JavaScript `parseFloat` on such a value: a finite number parses to
itself, while `undefined`, `null` and `NaN` stringify to something
unparseable and give `NaN`. -/
def jsParseFloat : JsRaw → JsRaw
  | .num q => .num q
  | _ => .nan

/-- JavaScript `Math.round`: round half toward positive infinity. -/
def jsRound (x : ℚ) : ℤ := ⌊x + 1/2⌋

/-- Lines 94-98 of `estimateIntensity`:
`let actualDepth = parseFloat(depth);`
`if (isNaN(actualDepth) || actualDepth <= 0) { actualDepth = 10; }`. -/
def actualDepthOf (depth : JsRaw) : ℚ :=
  match jsParseFloat depth with
  | .num dd => if dd ≤ 0 then 10 else dd
  | _ => 10

/-- Translation of `estimateIntensity` (src/CSEEW/eew.js lines 88-111).
The guard `isNaN(magnitude) || magnitude < 3.0` returns 0 for `NaN` and
`undefined` (via `isNaN`) and also for `null` (since `null < 3.0` coerces
`null` to `0`); only a finite magnitude `m` with `¬ m < 3` reaches the
formula.  `log10` abstracts `Math.log10`. -/
def estimateIntensity (log10 : ℚ → ℚ) (magnitude depth : JsRaw) : ℤ :=
  match magnitude with
  | .num m =>
    if m < 3 then 0
    else
      let actualDepth : ℚ := actualDepthOf depth
      let logDepth : ℚ := log10 actualDepth
      let estimatedI : ℤ := jsRound (1.5 * m + 3.0 - 3.5 * logDepth)
      -- Math.max(0, Math.min(12, estimatedI))
      max 0 (min 12 estimatedI)
  | _ => 0

/-- Depth default following the specification's words: the depth itself when
it is a positive number, and 10 km otherwise. -/
def refDepth : JsRaw → ℚ
  | .num dd => if 0 < dd then dd else 10
  | _ => 10

/-- Reference definition following the specification text for the intensity
estimator (spec section 4.1, claim C3): return 0 when the magnitude is not a
number or is below 3.0; otherwise, with the depth replaced by 10 whenever it
is not a positive number, return `round(1.5*M + 3.0 - 3.5*log10(depth))`
clamped to the range `[0, 12]`. -/
def estimateIntensityRef (log10 : ℚ → ℚ) (magnitude depth : JsRaw) : ℤ :=
  match magnitude with
  | .num m =>
    if m < 3 then 0
    else max 0 (min 12 (jsRound (1.5 * m + 3.0 - 3.5 * log10 (refDepth depth))))
  | _ => 0

/-- The feed kinds distinguished by the source (`data.type`); `other` covers
any unrecognized value. -/
inductive SourceType where
  | sc_eew
  | fj_eew
  | cwa_eew
  | jma_eew
  | test_eew
  | other
deriving DecidableEq, Repr

/-- One raw snapshot as consumed by `displayEew` / `createEewAlertElement`.
Optional string fields use `none` for an absent or falsy value. -/
structure Snapshot where
  type : SourceType
  eventID : Option String        -- data.EventID
  idField : Option String        -- data.ID
  serial : Option String         -- data.Serial
  isCancel : Bool                -- data.isCancel === true
  isFinal : Bool                 -- data.isFinal === true
  latitude : JsRaw               -- data.Latitude
  longitude : JsRaw              -- data.Longitude
  magunitude : JsRaw             -- data.Magunitude (sic, spelling from the source)
  depth : JsRaw                  -- data.Depth
  reportNum : Option String      -- data.ReportNum
  hypoCenterField : Option String  -- data.HypoCenter
  hypocenterField : Option String  -- data.Hypocenter (JMA spelling)
  originTime : Option String     -- data.OriginTime
  maxIntensity : Option String   -- data.MaxIntensity
  issueSource : Option String    -- data.Issue?.Source
  name : Option String           -- data.name
deriving DecidableEq, Repr

/-- JavaScript `a || b` on optional string fields (`none` models a falsy
field). -/
def jsOrOpt (a b : Option String) : Option String :=
  match a with
  | some x => some x
  | none => b

/-- Check of `data.type === 'jma_eew' && data.isCancel === true`
(line 342). -/
def jsIsCancel (d : Snapshot) : Bool :=
  match d.type with
  | .jma_eew => d.isCancel
  | _ => false

/-- Check of lines 343-346: `isFinal` is honoured for `jma_eew` and
`fj_eew` snapshots only. -/
def jsIsFinal (d : Snapshot) : Bool :=
  match d.type with
  | .jma_eew => d.isFinal
  | .fj_eew => d.isFinal
  | _ => false

/-- The event identifier used by `displayEew`
(`data.EventID || data.ID || 'test-...'`, line 350); `fresh` stands for the
synthesized `test-${Date.now()}-${random}` identifier. -/
def eventIdOf (d : Snapshot) (fresh : String) : String :=
  match jsOrOpt d.eventID d.idField with
  | some x => x
  | none => fresh

/-- Value of the `maxIntensityDisplay` variable after the per-source parse
block of `createEewAlertElement` (lines 238-296) and before the recompute
block: initialized to `'-'`, set to `data.MaxIntensity` for sc/cwa/jma/test
(possibly `undefined`, modelled `none`), and to `'N/A'` for fj. -/
def maxIntensityPre (d : Snapshot) : Option String :=
  match d.type with
  | .sc_eew => d.maxIntensity
  | .cwa_eew => d.maxIntensity
  | .jma_eew => d.maxIntensity
  | .test_eew => d.maxIntensity
  | .fj_eew => some "N/A"
  | .other => some "-"

/-- Value of the `rawMagnitudeForCalc` variable: `parseFloat(data.Magunitude)`
for every recognized type, and the initial `null` for an unrecognized one. -/
def rawMagnitudeForCalc (d : Snapshot) : JsRaw :=
  match d.type with
  | .other => .null
  | _ => jsParseFloat d.magunitude

/-- Value of the `rawDepthForCalc` variable: `parseFloat(data.Depth)` for
sc/cwa/jma/test, the constant `10` for fj (line 263), and the initial `null`
for an unrecognized type. -/
def rawDepthForCalc (d : Snapshot) : JsRaw :=
  match d.type with
  | .other => .null
  | .fj_eew => .num 10
  | _ => jsParseFloat d.depth

/-- The displayed intensity value: either a recomputed integer estimate or a
string (a feed-supplied value, or the sentinel `'-'`). -/
inductive IntensityVal where
  | num (n : ℤ)
  | str (s : String)
deriving DecidableEq, Repr

/-- The fallback branch of lines 302-307: if the feed value is `'N/A'`,
`undefined` or `null`, display `'-'`, otherwise display the feed value. -/
def feedIntensityFallback (d : Snapshot) : IntensityVal :=
  match maxIntensityPre d with
  | some "N/A" => .str "-"
  | none => .str "-"
  | some v => .str v

/-- Lines 298-307: the displayed intensity is recomputed via
`estimateIntensity` whenever `!isNaN(rawMagnitudeForCalc) &&
!isNaN(rawDepthForCalc)` (even when the feed supplied a value), and only
otherwise falls back to the feed value / `'-'`. -/
def maxIntensityDisplayOf (log10 : ℚ → ℚ) (d : Snapshot) : IntensityVal :=
  if !jsIsNaN (rawMagnitudeForCalc d) && !jsIsNaN (rawDepthForCalc d) then
    .num (estimateIntensity log10 (rawMagnitudeForCalc d) (rawDepthForCalc d))
  else
    feedIntensityFallback d

/-- A displayed field that is either a raw feed value or a literal string
assigned by the code. -/
inductive JsDisplay where
  | ofRaw (r : JsRaw)
  | ofStr (s : String)
deriving DecidableEq, Repr

/-- The display fields written into a banner element by
`createEewAlertElement` (lines 233-329). -/
structure AlertFields where
  reportNum : Option String
  hypoCenter : Option String
  originTime : Option String
  magnitudeDisplay : JsDisplay
  depthDisplay : JsDisplay
  maxIntensityDisplay : IntensityVal
  sourceAgency : String
deriving DecidableEq, Repr

/-- The per-source field extraction of `createEewAlertElement`
(lines 233-313), producing the banner content. -/
def computeFields (log10 : ℚ → ℚ) (d : Snapshot) : AlertFields :=
  match d.type with
  | .sc_eew =>
    { reportNum := d.reportNum
      hypoCenter := d.hypoCenterField
      originTime := d.originTime
      magnitudeDisplay := .ofRaw d.magunitude
      depthDisplay := .ofRaw d.depth
      maxIntensityDisplay := maxIntensityDisplayOf log10 d
      sourceAgency := "四川地震局" }
  | .fj_eew =>
    { reportNum := d.reportNum
      hypoCenter := d.hypoCenterField
      originTime := d.originTime
      magnitudeDisplay := .ofRaw d.magunitude
      depthDisplay := .ofStr "未知深度"
      maxIntensityDisplay := maxIntensityDisplayOf log10 d
      sourceAgency := "福建地震局" }
  | .cwa_eew =>
    { reportNum := d.reportNum
      hypoCenter := d.hypoCenterField
      originTime := d.originTime
      magnitudeDisplay := .ofRaw d.magunitude
      depthDisplay := .ofRaw d.depth
      maxIntensityDisplay := maxIntensityDisplayOf log10 d
      sourceAgency := "台湾中央气象署" }
  | .jma_eew =>
    { reportNum := d.serial
      hypoCenter := d.hypocenterField
      originTime := d.originTime
      magnitudeDisplay := .ofRaw d.magunitude
      depthDisplay := .ofRaw d.depth
      maxIntensityDisplay := maxIntensityDisplayOf log10 d
      sourceAgency := match d.issueSource with
        | some s => s
        | none => "日本气象厅" }
  | .test_eew =>
    { reportNum := jsOrOpt d.reportNum d.serial
      hypoCenter := jsOrOpt d.hypoCenterField d.hypocenterField
      originTime := d.originTime
      magnitudeDisplay := .ofRaw d.magunitude
      depthDisplay := .ofRaw d.depth
      maxIntensityDisplay := maxIntensityDisplayOf log10 d
      sourceAgency := (match d.name with | some n => n | none => "测试") ++ "模拟机构" }
  | .other =>
    { reportNum := none
      hypoCenter := none
      originTime := none
      magnitudeDisplay := .ofStr ""
      depthDisplay := .ofStr ""
      maxIntensityDisplay := maxIntensityDisplayOf log10 d
      sourceAgency := "未知机构" }

/-- One entry of the `activeEewAlerts` map: the banner element handle and
the pending expiry timer identifier. -/
structure AlertEntry where
  element : Nat
  timeoutId : Nat
deriving DecidableEq, Repr

/-- One entry of the `activeWaveAnimations` map together with the closure
state of its `animateWaves` callback.

The fields `epicenter`, `pWave`, `sWave` are map-object handles and
`animationFrameId` is the registry property that line 571 keeps up to date.
`fitViewTimer` is the registry property stored once at line 589: it holds
the value the closure variable had at that moment (always `null`), because
the callback only ever reassigns the closure variable, never this property.
The remaining fields (`pWaveRadius`, `sWaveRadius`, `lastUpdateTime`, the
four current opacities and `fitViewTimerC`) model the closure variables of
the `addEarthquake` invocation that owns the animation. -/
structure WaveEntry where
  epicenter : Nat
  pWave : Nat
  sWave : Nat
  animationFrameId : Nat
  fitViewTimer : Option Nat
  pWaveRadius : ℚ
  sWaveRadius : ℚ
  lastUpdateTime : ℚ
  pStrokeOpacity : ℚ
  pFillOpacity : ℚ
  sStrokeOpacity : ℚ
  sFillOpacity : ℚ
  fitViewTimerC : Option Nat
deriving DecidableEq, Repr

/-- One banner element inside the `eew-alerts-container`: its handle, its
`data-event-id` attribute and its rendered content. -/
structure Banner where
  handle : Nat
  eventId : String
  fields : AlertFields
deriving DecidableEq, Repr

/-- The whole mutable state of the page: the two registries, the banner
container, the live timers and animation-frame requests, the objects on the
map, the viewport, and a fresh-identifier counter for
`setTimeout` / `requestAnimationFrame` / DOM and map handles. -/
structure EewState where
  alerts : List (String × AlertEntry)
  waves : List (String × WaveEntry)
  banners : List Banner
  pendingTimeouts : List Nat
  pendingFrames : List Nat
  mapObjects : List Nat
  mapCenter : ℚ × ℚ
  mapZoom : ℚ
  nextId : Nat
deriving DecidableEq, Repr

/-- Initial map center `[104.06, 30.67]` (line 2), written as explicit
fractions `10406/100` and `3067/100`. -/
def INITIAL_MAP_CENTER : ℚ × ℚ := (mkRat 10406 100, mkRat 3067 100)

/-- Initial map zoom `5` (line 3). -/
def INITIAL_MAP_ZOOM : ℚ := 5

/-- `ALERT_DISPLAY_DURATION_MS = 10 * 60 * 1000` (line 137). -/
def ALERT_DISPLAY_DURATION_MS : ℚ := 10 * 60 * 1000

/-- P-wave speed, 6000 m/s (line 495). -/
def pWaveSpeed_m_s : ℚ := 6000

/-- S-wave speed, 4000 m/s (line 496). -/
def sWaveSpeed_m_s : ℚ := 4000

/-- `maxAnimationDuration_s = ALERT_DISPLAY_DURATION_MS / 1000` (line 499). -/
def maxAnimationDuration_s : ℚ := ALERT_DISPLAY_DURATION_MS / 1000

/-- `pWaveMaxRadius = pWaveSpeed_m_s * maxAnimationDuration_s` (line 500). -/
def pWaveMaxRadius : ℚ := pWaveSpeed_m_s * maxAnimationDuration_s

/-- `sWaveMaxRadius = sWaveSpeed_m_s * maxAnimationDuration_s` (line 501). -/
def sWaveMaxRadius : ℚ := sWaveSpeed_m_s * maxAnimationDuration_s

/-- Lookup in an association list modelling a JS `Map.get`. -/
def lookupKey {α : Type} : List (String × α) → String → Option α
  | [], _ => none
  | (k, v) :: t, key => if k = key then some v else lookupKey t key

/-- JS `Map.set`: replace the entry in place if the key is present,
otherwise append a new entry. -/
def setKey {α : Type} : List (String × α) → String → α → List (String × α)
  | [], key, v => [(key, v)]
  | (k, w) :: t, key, v =>
    if k = key then (key, v) :: t else (k, w) :: setKey t key v

/-- JS `Map.delete`. -/
def eraseKey {α : Type} (l : List (String × α)) (key : String) : List (String × α) :=
  l.filter (fun p => decide (p.1 ≠ key))

/-- Number of entries stored under a key. -/
def countKey {α : Type} (l : List (String × α)) (key : String) : Nat :=
  (l.filter (fun p => decide (p.1 = key))).length

/-- `clearTimeout` / `cancelAnimationFrame` of one identifier: a no-op if
the identifier is not pending. -/
def removeId (l : List Nat) (x : Nat) : List Nat :=
  l.filter (fun y => decide (y ≠ x))

/-- `map.remove([...])`: drop all the given handles. -/
def removeIds (l : List Nat) (rm : List Nat) : List Nat :=
  l.filter (fun y => decide (y ∉ rm))

/-- `if (t) clearTimeout(t)` on an optional timer identifier. -/
def clearOpt (l : List Nat) : Option Nat → List Nat
  | some t => removeId l t
  | none => l

/-- Removal of a banner element from the container (`element.remove()`
after the fade transition, modelled as immediate). -/
def removeBannerByHandle (bs : List Banner) (h : Nat) : List Banner :=
  bs.filter (fun b => decide (b.handle ≠ h))

/-- In-place replacement of a banner element's content
(`alertElement.innerHTML = ...`). -/
def setBannerFields (bs : List Banner) (h : Nat) (f : AlertFields) : List Banner :=
  bs.map (fun b => if b.handle = h then { b with fields := f } else b)

/-- Find a banner element by handle. -/
def findBanner (bs : List Banner) (h : Nat) : Option Banner :=
  match bs with
  | [] => none
  | b :: t => if b.handle = h then some b else findBanner t h

/-- Number of banner elements in the container carrying a given
`data-event-id`. -/
def countBannersFor (s : EewState) (id : String) : Nat :=
  (s.banners.filter (fun b => decide (b.eventId = id))).length

/-- JS `String.prototype.startsWith`, used for `eventId.startsWith('test-')`
(line 659). -/
def strStartsWith (s pre : String) : Bool :=
  s.data.take pre.data.length == pre.data

/-- Number of seconds elapsed since the sim's last update:
`(currentTime - lastUpdateTime) / 1000` (line 507). -/
def elapsedSec (w : WaveEntry) (t : ℚ) : ℚ := (t - w.lastUpdateTime) / 1000

/-- One radius update (lines 511-516): grow by `speed * deltaTime` and clamp
at the cap. -/
def stepRadius (r speed dt cap : ℚ) : ℚ := min (r + speed * dt) cap

/-- Opacity decay (lines 520-529): `initial * (1 - radius / cap)`, clamped
to be nonnegative. -/
def decayOpacity (init r cap : ℚ) : ℚ := max 0 (init * (1 - r / cap))

/-- The updated P-wave radius of the frame step. -/
def pNext (w : WaveEntry) (t : ℚ) : ℚ :=
  stepRadius w.pWaveRadius pWaveSpeed_m_s (elapsedSec w t) pWaveMaxRadius

/-- The updated S-wave radius of the frame step. -/
def sNext (w : WaveEntry) (t : ℚ) : ℚ :=
  stepRadius w.sWaveRadius sWaveSpeed_m_s (elapsedSec w t) sWaveMaxRadius

/-- Tail of the `animateWaves` callback (lines 568-582): either request the
next frame and store its identifier into the registry entry's
`animationFrameId` property (line 571), or — when both radii have reached
their caps — clear the pending debounce timer via the closure variable,
remove the three map objects, delete the registry entry and reset the
viewport. -/
def animStepFinish (s : EewState) (e : String) (w2 : WaveEntry) (p q : ℚ) : EewState :=
  if p < pWaveMaxRadius ∨ q < sWaveMaxRadius then
    { s with
      waves := setKey s.waves e { w2 with animationFrameId := s.nextId }
      pendingFrames := s.nextId :: s.pendingFrames
      nextId := s.nextId + 1 }
  else
    { s with
      pendingTimeouts := clearOpt s.pendingTimeouts w2.fitViewTimerC
      mapObjects := removeIds s.mapObjects [w2.epicenter, w2.pWave, w2.sWave]
      waves := eraseKey s.waves e
      mapZoom := INITIAL_MAP_ZOOM
      mapCenter := INITIAL_MAP_CENTER }

/-- Body of the `animateWaves` callback (lines 506-583) for the animation of
event `e`, invoked at timestamp `t` with current registry entry (and closure
state) `w`.  The frame that fired is no longer pending; radii are grown and
clamped, opacities recomputed, a view-fit debounce timer is scheduled when
none is pending (lines 545-566, operating on the closure variable), then the
continue/teardown branch runs. -/
def animStepEntry (s : EewState) (e : String) (t : ℚ) (w : WaveEntry) : EewState :=
  let s0 : EewState := { s with pendingFrames := removeId s.pendingFrames w.animationFrameId }
  let dt : ℚ := elapsedSec w t
  let p : ℚ := stepRadius w.pWaveRadius pWaveSpeed_m_s dt pWaveMaxRadius
  let q : ℚ := stepRadius w.sWaveRadius sWaveSpeed_m_s dt sWaveMaxRadius
  let w1 : WaveEntry := { w with
    pWaveRadius := p
    sWaveRadius := q
    lastUpdateTime := t
    pStrokeOpacity := decayOpacity 0.8 p pWaveMaxRadius
    pFillOpacity := decayOpacity 0.1 p pWaveMaxRadius
    sStrokeOpacity := decayOpacity 1 q sWaveMaxRadius
    sFillOpacity := decayOpacity 0.2 q sWaveMaxRadius }
  match w1.fitViewTimerC with
  | none =>
    let ft := s0.nextId
    animStepFinish
      { s0 with pendingTimeouts := ft :: s0.pendingTimeouts, nextId := s0.nextId + 1 }
      e { w1 with fitViewTimerC := some ft } p q
  | some _ => animStepFinish s0 e w1 p q

/-- One `animateWaves` frame for event `e` at timestamp `t` (a scheduled
animation-frame callback firing). -/
def animStep (s : EewState) (e : String) (t : ℚ) : EewState :=
  match lookupKey s.waves e with
  | some w => animStepEntry s e t w
  | none => s

/-- The wave-removal block shared by the cancel/final branch of `displayEew`
(lines 365-374) and the cycle-miss eviction (lines 669-678): cancel the
animation frame, run `if (fitViewTimer) clearTimeout(fitViewTimer)` on the
registry's `fitViewTimer` property (which still holds the `null` captured at
line 589, so the live debounce timer is not touched), remove the three map
objects, delete the registry entry, and restore the initial viewport. -/
def removeWaveFor (s : EewState) (eventId : String) : EewState :=
  match lookupKey s.waves eventId with
  | some w =>
    { s with
      pendingFrames := removeId s.pendingFrames w.animationFrameId
      pendingTimeouts := clearOpt s.pendingTimeouts w.fitViewTimer
      mapObjects := removeIds s.mapObjects [w.epicenter, w.pWave, w.sWave]
      waves := eraseKey s.waves eventId
      mapZoom := INITIAL_MAP_ZOOM
      mapCenter := INITIAL_MAP_CENTER }
  | none => s

/-- Translation of `createEewAlertElement` (lines 226-333): build a new
banner element carrying the snapshot's `data-event-id` and display fields,
append it to the container, and return its handle. -/
def createEewAlertElement (log10 : ℚ → ℚ) (fresh : String) (s : EewState) (d : Snapshot) :
    EewState × Nat :=
  let handle := s.nextId
  let b : Banner := { handle := handle, eventId := eventIdOf d fresh, fields := computeFields log10 d }
  ({ s with banners := s.banners ++ [b], nextId := s.nextId + 1 }, handle)

/-- Translation of `addEarthquake` (lines 441-590): cancel any previous
animation for the identifier (frame, the registry's stale `fitViewTimer`
copy, map objects, registry entry), move the viewport to the epicenter at
zoom 8, create the epicenter marker and the two wave circles with radius 0
and their initial opacities, request the first animation frame, and register
the new animation (its `fitViewTimer` property stores the closure variable's
current value, still `null`). -/
def addEarthquake (now : ℚ) (s : EewState) (lat lon magnitude : ℚ) (eventId : String) :
    EewState :=
  let s1 : EewState :=
    match lookupKey s.waves eventId with
    | some ex =>
      { s with
        pendingFrames := removeId s.pendingFrames ex.animationFrameId
        pendingTimeouts := clearOpt s.pendingTimeouts ex.fitViewTimer
        mapObjects := removeIds s.mapObjects [ex.epicenter, ex.pWave, ex.sWave]
        waves := eraseKey s.waves eventId }
    | none => s
  let s2 : EewState := { s1 with mapCenter := (lon, lat), mapZoom := 8 }
  let epicenter := s2.nextId
  let pW := s2.nextId + 1
  let sW := s2.nextId + 2
  let frameId := s2.nextId + 3
  let w : WaveEntry := {
    epicenter := epicenter
    pWave := pW
    sWave := sW
    animationFrameId := frameId
    fitViewTimer := none
    pWaveRadius := 0
    sWaveRadius := 0
    lastUpdateTime := now
    pStrokeOpacity := 0.8
    pFillOpacity := 0.1
    sStrokeOpacity := 1
    sFillOpacity := 0.2
    fitViewTimerC := none }
  { s2 with
    mapObjects := s2.mapObjects ++ [epicenter, pW, sW]
    pendingFrames := frameId :: s2.pendingFrames
    waves := setKey s2.waves eventId w
    nextId := s2.nextId + 4 }

/-- The parsed latitude used by `displayEew` (lines 378-389): assigned
`parseFloat(data.Latitude)` for the five recognized types and left
`undefined` otherwise. -/
def parsedLat (d : Snapshot) : JsRaw :=
  match d.type with
  | .other => .undef
  | _ => jsParseFloat d.latitude

/-- The parsed longitude used by `displayEew`. -/
def parsedLon (d : Snapshot) : JsRaw :=
  match d.type with
  | .other => .undef
  | _ => jsParseFloat d.longitude

/-- The parsed magnitude used by `displayEew`. -/
def parsedMag (d : Snapshot) : JsRaw :=
  match d.type with
  | .other => .undef
  | _ => jsParseFloat d.magunitude

/-- Translation of `displayEew` (lines 340-432).  A cancel/final snapshot
removes the banner, its expiry timer and the wave animation for the
identifier.  Otherwise, when `lat && lon && magnitude && !isNaN(lat) &&
!isNaN(lon) && !isNaN(magnitude)` holds, the alert is created or updated:
an existing alert has its expiry timer cleared, `createEewAlertElement(data)`
is invoked to regenerate the HTML (appending a fresh element to the
container, which is never removed) and the registered element's content is
replaced; a new alert gets a freshly created element.  In both cases a new
expiry timer is scheduled, the registry entry is (re)written and
`addEarthquake` restarts the wave animation.  Invalid snapshots are
no-ops. -/
def displayEew (log10 : ℚ → ℚ) (now : ℚ) (fresh : String) (s : EewState) (d : Snapshot) :
    EewState :=
  let eventId := eventIdOf d fresh
  if jsIsCancel d || jsIsFinal d then
    let s1 : EewState :=
      match lookupKey s.alerts eventId with
      | some a =>
        { s with
          pendingTimeouts := removeId s.pendingTimeouts a.timeoutId
          banners := removeBannerByHandle s.banners a.element
          alerts := eraseKey s.alerts eventId }
      | none => s
    removeWaveFor s1 eventId
  else
    let latR := parsedLat d
    let lonR := parsedLon d
    let magR := parsedMag d
    if jsTruthy latR && jsTruthy lonR && jsTruthy magR &&
        !jsIsNaN latR && !jsIsNaN lonR && !jsIsNaN magR then
      match latR, lonR, magR with
      | .num lat, .num lon, .num mag =>
        let res : EewState × Nat :=
          match lookupKey s.alerts eventId with
          | some ex =>
            let sA : EewState := { s with pendingTimeouts := removeId s.pendingTimeouts ex.timeoutId }
            let created := createEewAlertElement log10 fresh sA d
            let sC : EewState :=
              { created.1 with banners := setBannerFields created.1.banners ex.element (computeFields log10 d) }
            (sC, ex.element)
          | none => createEewAlertElement log10 fresh s d
        let s2 := res.1
        let element := res.2
        let newTimeoutId := s2.nextId
        let s3 : EewState :=
          { s2 with pendingTimeouts := newTimeoutId :: s2.pendingTimeouts, nextId := s2.nextId + 1 }
        let s4 : EewState := { s3 with alerts := setKey s3.alerts eventId ⟨element, newTimeoutId⟩ }
        addEarthquake now s4 lat lon mag eventId
      | _, _, _ => s
    else
      s

/-- One eviction action of the polling-cycle cleanup (lines 661-678):
clear the alert's expiry timer, remove its banner element, drop the registry
entry, then remove the wave animation via the shared block. -/
def evictAlertEntry (acc : EewState) (eventId : String) (a : AlertEntry) : EewState :=
  let acc1 : EewState :=
    { acc with
      pendingTimeouts := removeId acc.pendingTimeouts a.timeoutId
      banners := removeBannerByHandle acc.banners a.element
      alerts := eraseKey acc.alerts eventId }
  removeWaveFor acc1 eventId

/-- The end-of-cycle eviction loop (lines 656-680): every active alert whose
identifier was not received this cycle and does not start with `'test-'` is
evicted. -/
def cycleEvict (s : EewState) (received : List String) : EewState :=
  s.alerts.foldl
    (fun acc p =>
      if !(received.contains p.1) && !(strStartsWith p.1 "test-") then
        evictAlertEntry acc p.1 p.2
      else acc)
    s

/-- The identifier recorded into `receivedEventIdsThisCycle`
(`data.EventID || data.ID || data.Serial`, line 650); `none` when the
snapshot would be skipped by the guard at line 649. -/
def idForCycle (d : Snapshot) : Option String :=
  jsOrOpt d.eventID (jsOrOpt d.idField d.serial)

/-- The set of identifiers received from the feeds in one polling cycle. -/
def receivedIds (results : List Snapshot) : List String :=
  results.foldr
    (fun d acc =>
      match idForCycle d with
      | some i => i :: acc
      | none => acc)
    []

/-- The page state right after `DOMContentLoaded`: empty registries, empty
container, no timers, and the initial viewport. -/
def initState : EewState :=
  { alerts := []
    waves := []
    banners := []
    pendingTimeouts := []
    pendingFrames := []
    mapObjects := []
    mapCenter := INITIAL_MAP_CENTER
    mapZoom := INITIAL_MAP_ZOOM
    nextId := 0 }

/-- A stand-in for `Math.log10` that is exact at 10 (`Math.log10(10) = 1`);
only this value is ever relied on by the concrete claims. -/
def log10Unit : ℚ → ℚ := fun _ => 1

/-! Concrete snapshots and states used to evaluate the model on explicit
inputs.  Magnitude 2 is used in the valid snapshots so that the intensity
estimator takes its short-circuit branch and the whole evaluation stays
within kernel-computable rational operations. -/

/-- A valid first report for event `E1` from the Sichuan feed. -/
def snapE1a : Snapshot :=
  { type := .sc_eew
    eventID := some "E1"
    idField := none
    serial := none
    isCancel := false
    isFinal := false
    latitude := .num 31
    longitude := .num 103
    magunitude := .num 2
    depth := .num 20
    reportNum := some "1"
    hypoCenterField := some "四川省阿坝州"
    hypocenterField := none
    originTime := some "2025/06/15 08:00:00"
    maxIntensity := some "7"
    issueSource := none
    name := none }

/-- A later report for the same event `E1` (updated report number). -/
def snapE1b : Snapshot := { snapE1a with reportNum := some "2" }

/-- A snapshot whose parsed latitude is exactly 0 (equator) and which is
otherwise valid and not a cancel/final report. -/
def snapZeroLat : Snapshot := { snapE1a with eventID := some "E0", latitude := .num 0 }

/-- A JMA cancel report for event `J1`. -/
def snapJ1cancel : Snapshot :=
  { type := .jma_eew
    eventID := some "J1"
    idField := none
    serial := some "3"
    isCancel := true
    isFinal := false
    latitude := .num 36
    longitude := .num 141
    magunitude := .num 2
    depth := .num 40
    reportNum := none
    hypoCenterField := none
    hypocenterField := some "日本福岛县近海"
    originTime := some "2025/06/15 11:44:00"
    maxIntensity := some "6"
    issueSource := some "日本气象厅"
    name := none }

/-- Stub banner content for pre-built states. -/
def fieldsStub : AlertFields :=
  { reportNum := some "1"
    hypoCenter := some "四川省阿坝州"
    originTime := some "2025/06/15 08:00:00"
    magnitudeDisplay := .ofRaw (.num 2)
    depthDisplay := .ofRaw (.num 20)
    maxIntensityDisplay := .num 0
    sourceAgency := "四川地震局" }

/-- A running wave animation: the registry's `fitViewTimer` property is the
`null` captured at creation, while the closure variable `fitViewTimerC`
holds a live pending debounce timer with identifier 7. -/
def waveRunning : WaveEntry :=
  { epicenter := 3
    pWave := 4
    sWave := 5
    animationFrameId := 6
    fitViewTimer := none
    pWaveRadius := 1000
    sWaveRadius := 800
    lastUpdateTime := 100
    pStrokeOpacity := mkRat 4 5
    pFillOpacity := mkRat 1 10
    sStrokeOpacity := 1
    sFillOpacity := mkRat 1 5
    fitViewTimerC := some 7 }

/-- A state with one active alert `J1`, its banner, its running wave
animation, the pending expiry timer 2, the pending debounce timer 7 and the
pending animation frame 6. -/
def stateJ1 : EewState :=
  { alerts := [("J1", { element := 1, timeoutId := 2 })]
    waves := [("J1", waveRunning)]
    banners := [{ handle := 1, eventId := "J1", fields := fieldsStub }]
    pendingTimeouts := [2, 7]
    pendingFrames := [6]
    mapObjects := [3, 4, 5]
    mapCenter := (141, 36)
    mapZoom := 8
    nextId := 8 }

/-- A state with a non-test alert `E1` (running wave, pending debounce
timer 7) and a test-triggered alert `test-9`. -/
def stateCycle : EewState :=
  { alerts := [("E1", { element := 1, timeoutId := 2 }), ("test-9", { element := 10, timeoutId := 11 })]
    waves := [("E1", waveRunning)]
    banners := [{ handle := 1, eventId := "E1", fields := fieldsStub },
                { handle := 10, eventId := "test-9", fields := fieldsStub }]
    pendingTimeouts := [2, 7, 11]
    pendingFrames := [6]
    mapObjects := [3, 4, 5]
    mapCenter := (103, 31)
    mapZoom := 8
    nextId := 12 }

/-- A state with only the running wave animation of `E1` (as after its
alert's expiry timer has fired), used to exercise `addEarthquake`
re-triggering. -/
def stateWaveOnly : EewState :=
  { alerts := []
    waves := [("E1", waveRunning)]
    banners := []
    pendingTimeouts := [7]
    pendingFrames := [6]
    mapObjects := [3, 4, 5]
    mapCenter := (103, 31)
    mapZoom := 8
    nextId := 8 }

/-- A freshly started wave animation at radius 0 with no pending debounce
timer. -/
def waveAtStart : WaveEntry :=
  { epicenter := 0
    pWave := 1
    sWave := 2
    animationFrameId := 3
    fitViewTimer := none
    pWaveRadius := 0
    sWaveRadius := 0
    lastUpdateTime := 0
    pStrokeOpacity := mkRat 4 5
    pFillOpacity := mkRat 1 10
    sStrokeOpacity := 1
    sFillOpacity := mkRat 1 5
    fitViewTimerC := none }

/-- A state holding the freshly started animation of `E1`. -/
def stateAnim : EewState :=
  { alerts := []
    waves := [("E1", waveAtStart)]
    banners := []
    pendingTimeouts := []
    pendingFrames := [3]
    mapObjects := [0, 1, 2]
    mapCenter := (103, 31)
    mapZoom := 8
    nextId := 4 }

/-- The animation of `E1` with both radii at their caps. -/
def waveAtEnd : WaveEntry :=
  { waveAtStart with pWaveRadius := 3600000, sWaveRadius := 2400000, lastUpdateTime := 500 }

/-- A state holding the capped animation of `E1`. -/
def stateAnimEnd : EewState := { stateAnim with waves := [("E1", waveAtEnd)] }

/-! Helper lemmas about the list operations of the model. -/

theorem lookupKey_setKey_self {α : Type} (l : List (String × α)) (k : String) (v : α) :
    lookupKey (setKey l k v) k = some v := by
  induction l with
  | nil => simp [setKey, lookupKey]
  | cons p t ih =>
    obtain ⟨a, b⟩ := p
    by_cases hk : a = k
    · simp [setKey, hk, lookupKey]
    · simp [setKey, hk, lookupKey, ih]

theorem lookupKey_eraseKey_self {α : Type} (l : List (String × α)) (k : String) :
    lookupKey (eraseKey l k) k = none := by
  induction l with
  | nil => rfl
  | cons p t ih =>
    obtain ⟨a, b⟩ := p
    by_cases hk : a = k
    · simpa [eraseKey, List.filter_cons, hk] using ih
    · simpa [eraseKey, List.filter_cons, hk, lookupKey] using ih

theorem not_mem_removeIds {x : Nat} {rm : List Nat} (l : List Nat) (hx : x ∈ rm) :
    x ∉ removeIds l rm := by
  simp [removeIds, List.mem_filter]
  intro _hl
  exact hx

theorem decayOpacity_eq_of_le {init r cap : ℚ} (hinit : 0 ≤ init) (hcap : 0 < cap)
    (hr : r ≤ cap) : decayOpacity init r cap = init * (1 - r / cap) := by
  unfold decayOpacity
  apply max_eq_right
  have h1 : r / cap ≤ 1 := (div_le_one hcap).mpr hr
  nlinarith

theorem decayOpacity_eq_zero_iff {init r cap : ℚ} (hinit : 0 < init) (hcap : 0 < cap)
    (hr : r ≤ cap) : decayOpacity init r cap = 0 ↔ r = cap := by
  rw [decayOpacity_eq_of_le hinit.le hcap hr]
  constructor
  · intro h
    rcases mul_eq_zero.mp h with h1 | h2
    · exact absurd h1 hinit.ne'
    · have hdiv : r / cap = 1 := by linarith
      have := (div_eq_one_iff_eq hcap.ne').mp hdiv
      exact this
  · intro h
    rw [h, div_self hcap.ne']
    ring

theorem actualDepthOf_eq_refDepth (d : JsRaw) : actualDepthOf d = refDepth d := by
  cases d with
  | num dd =>
    by_cases hdd : dd ≤ 0
    · simp only [actualDepthOf, refDepth, jsParseFloat, hdd, not_lt.mpr hdd, if_true, if_false]
    · simp only [actualDepthOf, refDepth, jsParseFloat, hdd, not_le.mp hdd, if_true, if_false]
  | undef => rfl
  | null => rfl
  | nan => rfl

theorem estimateIntensity_num_low (log10 : ℚ → ℚ) (q : ℚ) (d : JsRaw) (hq : q < 3) :
    estimateIntensity log10 (.num q) d = 0 := by
  simp only [estimateIntensity, hq, if_true]

theorem estimateIntensity_num_high (log10 : ℚ → ℚ) (q : ℚ) (d : JsRaw) (hq : ¬ q < 3) :
    estimateIntensity log10 (.num q) d
      = max 0 (min 12 (jsRound (1.5 * q + 3.0 - 3.5 * log10 (actualDepthOf d)))) := by
  simp only [estimateIntensity, hq, if_false]

/-! Claim theorems. -/

/-- Claim C3: for all inputs, `estimateIntensity` agrees with the reference
definition from the specification (0 below the magnitude floor or for a
non-number, depth defaulted to 10 when not a positive number, rounded
formula clamped to [0,12]); in particular `estimate(2.9, 10) = 0` and
`estimate(6.0, -5) = estimate(6.0, 10)`. -/
theorem claimC3_estimate_matches_ref (log10 : ℚ → ℚ) (m d : JsRaw) :
    estimateIntensity log10 m d = estimateIntensityRef log10 m d ∧
    estimateIntensity log10 (.num (29/10)) (.num 10) = 0 ∧
    estimateIntensity log10 (.num 6) (.num (-5)) = estimateIntensity log10 (.num 6) (.num 10) := by
  refine ⟨?_, ?_, ?_⟩
  · cases m with
    | num q =>
      by_cases hq : q < 3
      · rw [estimateIntensity_num_low log10 q d hq]
        simp only [estimateIntensityRef, hq, if_true]
      · rw [estimateIntensity_num_high log10 q d hq, actualDepthOf_eq_refDepth]
        simp only [estimateIntensityRef, hq, if_false]
    | undef => rfl
    | null => rfl
    | nan => rfl
  · exact estimateIntensity_num_low log10 (29/10) (.num 10) (by norm_num)
  · rw [estimateIntensity_num_high log10 6 (.num (-5)) (by norm_num),
      estimateIntensity_num_high log10 6 (.num 10) (by norm_num)]
    norm_num [actualDepthOf, jsParseFloat]

/-- Claim C2 counterexample: with `Math.log10(10) = 1`, the estimator at
magnitude 6.8 and depth 10 does not return 7 (it returns
`round(1.5*6.8 + 3 - 3.5) = round(9.7) = 10`). -/
theorem claimC2_counterexample :
    estimateIntensity log10Unit (.num (6.8 : ℚ)) (.num 10) ≠ 7 := by
  rw [estimateIntensity_num_high log10Unit (6.8 : ℚ) (.num 10) (by norm_num)]
  norm_num [jsRound, actualDepthOf, jsParseFloat, log10Unit]

/-- Claim C2 (amended): the intensity estimator applied to magnitude 6.8 and
depth 10 returns 10, for any model of `Math.log10` with `log10 10 = 1`. -/
theorem claimC2_amended (log10 : ℚ → ℚ) (h : log10 10 = 1) :
    estimateIntensity log10 (.num (6.8 : ℚ)) (.num 10) = 10 := by
  rw [estimateIntensity_num_high log10 (6.8 : ℚ) (.num 10) (by norm_num)]
  have hd : actualDepthOf (.num 10) = 10 := by norm_num [actualDepthOf, jsParseFloat]
  rw [hd, h]
  norm_num [jsRound]

/-- Witness for claim C2's amended theorem at the concrete logarithm model. -/
theorem claimC2_amended_witness :
    estimateIntensity log10Unit (.num (6.8 : ℚ)) (.num 10) = 10 :=
  claimC2_amended log10Unit rfl

theorem pWaveMaxRadius_eq : pWaveMaxRadius = 3600000 := by
  norm_num [pWaveMaxRadius, pWaveSpeed_m_s, maxAnimationDuration_s, ALERT_DISPLAY_DURATION_MS]

theorem sWaveMaxRadius_eq : sWaveMaxRadius = 2400000 := by
  norm_num [sWaveMaxRadius, sWaveSpeed_m_s, maxAnimationDuration_s, ALERT_DISPLAY_DURATION_MS]

theorem pWaveMaxRadius_pos : 0 < pWaveMaxRadius := by
  rw [pWaveMaxRadius_eq]; norm_num

theorem sWaveMaxRadius_pos : 0 < sWaveMaxRadius := by
  rw [sWaveMaxRadius_eq]; norm_num

/-- Claim C1 (behavior at the failing input): processing a first valid
snapshot for `E1` yields one banner element and one registry entry; but
processing an update for the same identifier leaves TWO banner elements for
`E1` in the container (the update path calls `createEewAlertElement(data)`
to regenerate the HTML, and that call appends a new element that is never
removed), while the registry still holds one entry whose element is the
original banner, whose content was replaced with the fields of the latest
snapshot. -/
theorem claimC1_duplicate_banner_on_update :
    countBannersFor (displayEew log10Unit 0 "f1" initState snapE1a) "E1" = 1 ∧
    countKey (displayEew log10Unit 0 "f1" initState snapE1a).alerts "E1" = 1 ∧
    countBannersFor
      (displayEew log10Unit 5 "f2" (displayEew log10Unit 0 "f1" initState snapE1a) snapE1b) "E1" = 2 ∧
    countKey
      (displayEew log10Unit 5 "f2" (displayEew log10Unit 0 "f1" initState snapE1a) snapE1b).alerts "E1" = 1 ∧
    (lookupKey
      (displayEew log10Unit 5 "f2" (displayEew log10Unit 0 "f1" initState snapE1a) snapE1b).alerts "E1").map
        AlertEntry.element = some 0 ∧
    (findBanner
      (displayEew log10Unit 5 "f2" (displayEew log10Unit 0 "f1" initState snapE1a) snapE1b).banners 0).map
        Banner.fields = some (computeFields log10Unit snapE1b) := by
  decide

/-- Claim C4 (behavior at the failing input): a JMA cancel snapshot for the
active identifier `J1` removes the registry entry, cancels the expiry
timer 2, removes the banner, cancels the animation frame 6, removes the
three map objects, deletes the wave registry entry and resets the viewport —
but the pending 500 ms view-fit debounce timer 7 of the wave simulation is
NOT cancelled (the `clearTimeout` at line 368 acts on the registry's
`fitViewTimer` property, which still holds the `null` captured at line 589),
so it remains pending after the removal. -/
theorem claimC4_cancel_leaves_debounce_timer :
    lookupKey (displayEew log10Unit 0 "f" stateJ1 snapJ1cancel).alerts "J1" = none ∧
    2 ∉ (displayEew log10Unit 0 "f" stateJ1 snapJ1cancel).pendingTimeouts ∧
    (displayEew log10Unit 0 "f" stateJ1 snapJ1cancel).banners = [] ∧
    lookupKey (displayEew log10Unit 0 "f" stateJ1 snapJ1cancel).waves "J1" = none ∧
    6 ∉ (displayEew log10Unit 0 "f" stateJ1 snapJ1cancel).pendingFrames ∧
    (displayEew log10Unit 0 "f" stateJ1 snapJ1cancel).mapObjects = [] ∧
    (displayEew log10Unit 0 "f" stateJ1 snapJ1cancel).mapZoom = INITIAL_MAP_ZOOM ∧
    (displayEew log10Unit 0 "f" stateJ1 snapJ1cancel).mapCenter = INITIAL_MAP_CENTER ∧
    7 ∈ (displayEew log10Unit 0 "f" stateJ1 snapJ1cancel).pendingTimeouts := by
  decide

/-- Claim C5 (behavior at the failing input): with received identifiers
`["F1"]`, the end-of-cycle eviction removes the non-test alert `E1`
completely (registry entry, expiry timer 2, banner, wave entry, animation
frame 6, map objects, viewport reset) and leaves the test alert `test-9`
untouched (entry, expiry timer 11 and banner all kept) — but the evicted
wave simulation's pending 500 ms view-fit debounce timer 7 survives the
eviction (the `clearTimeout` at line 672 acts on the stale registry
`fitViewTimer` property, which is `null`). -/
theorem claimC5_cycle_eviction_leaves_debounce_timer :
    lookupKey (cycleEvict stateCycle ["F1"]).alerts "E1" = none ∧
    2 ∉ (cycleEvict stateCycle ["F1"]).pendingTimeouts ∧
    findBanner (cycleEvict stateCycle ["F1"]).banners 1 = none ∧
    lookupKey (cycleEvict stateCycle ["F1"]).waves "E1" = none ∧
    6 ∉ (cycleEvict stateCycle ["F1"]).pendingFrames ∧
    (cycleEvict stateCycle ["F1"]).mapObjects = [] ∧
    (cycleEvict stateCycle ["F1"]).mapZoom = INITIAL_MAP_ZOOM ∧
    (cycleEvict stateCycle ["F1"]).mapCenter = INITIAL_MAP_CENTER ∧
    lookupKey (cycleEvict stateCycle ["F1"]).alerts "test-9" = some { element := 10, timeoutId := 11 } ∧
    11 ∈ (cycleEvict stateCycle ["F1"]).pendingTimeouts ∧
    (findBanner (cycleEvict stateCycle ["F1"]).banners 10).map Banner.eventId = some "test-9" ∧
    7 ∈ (cycleEvict stateCycle ["F1"]).pendingTimeouts := by
  decide

/-- Claim C7 (behavior at the failing input): re-triggering the wave
animation for `E1` cancels the previous animation frame 6, removes the
previous map objects 3, 4, 5, and starts a new simulation at radius 0 — but
the superseded simulation's pending view-fit debounce timer 7 is NOT
cancelled (line 446 clears the registry's stale `fitViewTimer` property,
which is `null`), so a stale debounce timer from the superseded simulation
coexists with the new simulation. -/
theorem claimC7_retrigger_leaves_debounce_timer :
    6 ∉ (addEarthquake 50 stateWaveOnly 31 103 2 "E1").pendingFrames ∧
    3 ∉ (addEarthquake 50 stateWaveOnly 31 103 2 "E1").mapObjects ∧
    4 ∉ (addEarthquake 50 stateWaveOnly 31 103 2 "E1").mapObjects ∧
    5 ∉ (addEarthquake 50 stateWaveOnly 31 103 2 "E1").mapObjects ∧
    (lookupKey (addEarthquake 50 stateWaveOnly 31 103 2 "E1").waves "E1").map
      (fun w => (w.pWaveRadius, w.sWaveRadius)) = some (0, 0) ∧
    7 ∈ (addEarthquake 50 stateWaveOnly 31 103 2 "E1").pendingTimeouts := by
  decide

/-- Claim C10: the validity test of `displayEew` uses JavaScript truthiness
on top of the `isNaN` checks, so a snapshot (that is not a cancel/final
report) whose parsed latitude, longitude or magnitude is exactly 0 is
treated as invalid: the state is left completely unchanged — no alert is
created or updated and no wave simulation is started. -/
theorem claimC10_zero_coordinate_is_invalid (log10 : ℚ → ℚ) (now : ℚ) (fresh : String)
    (s : EewState) (d : Snapshot)
    (hc : jsIsCancel d = false) (hf : jsIsFinal d = false)
    (hz : parsedLat d = .num 0 ∨ parsedLon d = .num 0 ∨ parsedMag d = .num 0) :
    displayEew log10 now fresh s d = s := by
  have hz0 : jsTruthy (JsRaw.num 0) = false := by decide
  rcases hz with h | h | h
  · simp [displayEew, hc, hf, h, hz0]
  · simp [displayEew, hc, hf, h, hz0]
  · simp [displayEew, hc, hf, h, hz0]

/-- Witness for claim C10 at a concrete snapshot with latitude exactly 0. -/
theorem claimC10_zero_coordinate_is_invalid_witness :
    displayEew log10Unit 0 "f" stateJ1 snapZeroLat = stateJ1 :=
  claimC10_zero_coordinate_is_invalid log10Unit 0 "f" stateJ1 snapZeroLat
    (by decide) (by decide) (Or.inl (by decide))

/-- Claim C9: for every snapshot of a recognized feed type, the displayed
intensity on the banner is the recomputed estimate from
(`rawMagnitudeForCalc`, `rawDepthForCalc`) whenever both parse to numbers —
even if the feed supplied its own `MaxIntensity` — and the feed-supplied
value (or the sentinel `'-'` when the feed value is `'N/A'`, `undefined` or
`null`) is displayed only when recomputation is impossible because the
magnitude or the depth is unparseable. -/
theorem claimC9_intensity_recompute_priority (log10 : ℚ → ℚ) (d : Snapshot)
    (hty : d.type ≠ .other) :
    ((!jsIsNaN (rawMagnitudeForCalc d) && !jsIsNaN (rawDepthForCalc d)) = true →
      (computeFields log10 d).maxIntensityDisplay
        = .num (estimateIntensity log10 (rawMagnitudeForCalc d) (rawDepthForCalc d))) ∧
    ((!jsIsNaN (rawMagnitudeForCalc d) && !jsIsNaN (rawDepthForCalc d)) = false →
      (computeFields log10 d).maxIntensityDisplay = feedIntensityFallback d) ∧
    (feedIntensityFallback d = .str "-" ∨
      ∃ v, maxIntensityPre d = some v ∧ feedIntensityFallback d = .str v) := by
  have hmd : (computeFields log10 d).maxIntensityDisplay = maxIntensityDisplayOf log10 d := by
    cases htype : d.type <;> simp [computeFields, htype]
  refine ⟨?_, ?_, ?_⟩
  · intro hb
    rw [hmd]
    simp [maxIntensityDisplayOf, hb]
  · intro hb
    rw [hmd]
    simp [maxIntensityDisplayOf, hb]
  · cases hm : maxIntensityPre d with
    | none => left; simp [feedIntensityFallback, hm]
    | some v =>
      by_cases hv : v = "N/A"
      · left; simp [feedIntensityFallback, hm, hv]
      · right
        refine ⟨v, rfl, ?_⟩
        simp [feedIntensityFallback, hm, hv]

/-- Witness for claim C9 at a concrete snapshot with parseable magnitude and
depth and a feed-supplied intensity value: the display is the recomputed
estimate. -/
theorem claimC9_intensity_recompute_priority_witness :
    (computeFields log10Unit snapE1a).maxIntensityDisplay
      = .num (estimateIntensity log10Unit (rawMagnitudeForCalc snapE1a) (rawDepthForCalc snapE1a)) :=
  (claimC9_intensity_recompute_priority log10Unit snapE1a (by decide)).1 (by decide)

theorem animStep_continue (s : EewState) (e : String) (t : ℚ) (w : WaveEntry)
    (h : lookupKey s.waves e = some w)
    (hcond : pNext w t < pWaveMaxRadius ∨ sNext w t < sWaveMaxRadius) :
    ∃ w2, lookupKey (animStep s e t).waves e = some w2 ∧
      w2.pWaveRadius = pNext w t ∧ w2.sWaveRadius = sNext w t ∧
      w2.lastUpdateTime = t ∧
      w2.pStrokeOpacity = decayOpacity 0.8 (pNext w t) pWaveMaxRadius ∧
      w2.pFillOpacity = decayOpacity 0.1 (pNext w t) pWaveMaxRadius ∧
      w2.sStrokeOpacity = decayOpacity 1 (sNext w t) sWaveMaxRadius ∧
      w2.sFillOpacity = decayOpacity 0.2 (sNext w t) sWaveMaxRadius := by
  unfold animStep
  rw [h]
  unfold animStepEntry animStepFinish
  simp only [pNext, sNext, elapsedSec] at hcond ⊢
  cases hfv : w.fitViewTimerC with
  | none =>
    simp only [hfv]
    rw [if_pos hcond]
    exact ⟨_, lookupKey_setKey_self _ _ _, rfl, rfl, rfl, rfl, rfl, rfl, rfl⟩
  | some ft =>
    simp only [hfv]
    rw [if_pos hcond]
    exact ⟨_, lookupKey_setKey_self _ _ _, rfl, rfl, rfl, rfl, rfl, rfl, rfl⟩

/-- Claim C6: in every frame-update step of a running wave simulation (with
a monotone timestamp and radii within range, as established at start-up),
each wavefront radius is non-decreasing and never exceeds its cap
`speed * 600 s`; each updated opacity equals
`initial_opacity * (1 - radius/max_radius)` (the `≥ 0` clamp never engaging
below the cap) and is 0 exactly when the radius has reached its cap; and
when the simulation continues, the stored entry carries exactly these
updated radii and opacities. -/
theorem claimC6_wave_step_invariants (s : EewState) (e : String) (t : ℚ) (w : WaveEntry)
    (h : lookupKey s.waves e = some w) (hle : w.lastUpdateTime ≤ t)
    (hp0 : 0 ≤ w.pWaveRadius) (hpc : w.pWaveRadius ≤ pWaveMaxRadius)
    (hq0 : 0 ≤ w.sWaveRadius) (hqc : w.sWaveRadius ≤ sWaveMaxRadius) :
    (w.pWaveRadius ≤ pNext w t ∧ pNext w t ≤ pWaveMaxRadius) ∧
    (w.sWaveRadius ≤ sNext w t ∧ sNext w t ≤ sWaveMaxRadius) ∧
    (decayOpacity 0.8 (pNext w t) pWaveMaxRadius = 0.8 * (1 - pNext w t / pWaveMaxRadius) ∧
      (decayOpacity 0.8 (pNext w t) pWaveMaxRadius = 0 ↔ pNext w t = pWaveMaxRadius)) ∧
    (decayOpacity 0.1 (pNext w t) pWaveMaxRadius = 0.1 * (1 - pNext w t / pWaveMaxRadius) ∧
      (decayOpacity 0.1 (pNext w t) pWaveMaxRadius = 0 ↔ pNext w t = pWaveMaxRadius)) ∧
    (decayOpacity 1 (sNext w t) sWaveMaxRadius = 1 * (1 - sNext w t / sWaveMaxRadius) ∧
      (decayOpacity 1 (sNext w t) sWaveMaxRadius = 0 ↔ sNext w t = sWaveMaxRadius)) ∧
    (decayOpacity 0.2 (sNext w t) sWaveMaxRadius = 0.2 * (1 - sNext w t / sWaveMaxRadius) ∧
      (decayOpacity 0.2 (sNext w t) sWaveMaxRadius = 0 ↔ sNext w t = sWaveMaxRadius)) ∧
    (pNext w t < pWaveMaxRadius ∨ sNext w t < sWaveMaxRadius →
      ∃ w2, lookupKey (animStep s e t).waves e = some w2 ∧
        w2.pWaveRadius = pNext w t ∧ w2.sWaveRadius = sNext w t ∧
        w2.lastUpdateTime = t ∧
        w2.pStrokeOpacity = decayOpacity 0.8 (pNext w t) pWaveMaxRadius ∧
        w2.pFillOpacity = decayOpacity 0.1 (pNext w t) pWaveMaxRadius ∧
        w2.sStrokeOpacity = decayOpacity 1 (sNext w t) sWaveMaxRadius ∧
        w2.sFillOpacity = decayOpacity 0.2 (sNext w t) sWaveMaxRadius) := by
  have hdt : 0 ≤ elapsedSec w t := by
    unfold elapsedSec
    exact div_nonneg (sub_nonneg.mpr hle) (by norm_num)
  have hpspeed : (0:ℚ) ≤ pWaveSpeed_m_s := by norm_num [pWaveSpeed_m_s]
  have hsspeed : (0:ℚ) ≤ sWaveSpeed_m_s := by norm_num [sWaveSpeed_m_s]
  have hpmono : w.pWaveRadius ≤ pNext w t := by
    unfold pNext stepRadius
    exact le_min (by nlinarith [mul_nonneg hpspeed hdt]) hpc
  have hsmono : w.sWaveRadius ≤ sNext w t := by
    unfold sNext stepRadius
    exact le_min (by nlinarith [mul_nonneg hsspeed hdt]) hqc
  have hpcap : pNext w t ≤ pWaveMaxRadius := min_le_right _ _
  have hscap : sNext w t ≤ sWaveMaxRadius := min_le_right _ _
  refine ⟨⟨hpmono, hpcap⟩, ⟨hsmono, hscap⟩, ?_, ?_, ?_, ?_, ?_⟩
  · exact ⟨decayOpacity_eq_of_le (by norm_num) pWaveMaxRadius_pos hpcap,
      decayOpacity_eq_zero_iff (by norm_num) pWaveMaxRadius_pos hpcap⟩
  · exact ⟨decayOpacity_eq_of_le (by norm_num) pWaveMaxRadius_pos hpcap,
      decayOpacity_eq_zero_iff (by norm_num) pWaveMaxRadius_pos hpcap⟩
  · exact ⟨decayOpacity_eq_of_le (by norm_num) sWaveMaxRadius_pos hscap,
      decayOpacity_eq_zero_iff (by norm_num) sWaveMaxRadius_pos hscap⟩
  · exact ⟨decayOpacity_eq_of_le (by norm_num) sWaveMaxRadius_pos hscap,
      decayOpacity_eq_zero_iff (by norm_num) sWaveMaxRadius_pos hscap⟩
  · exact animStep_continue s e t w h

/-- Witness for claim C6 at the freshly started animation of `E1`,
stepped at timestamp 1000 (one second after start). -/
theorem claimC6_wave_step_invariants_witness :
    (waveAtStart.pWaveRadius ≤ pNext waveAtStart 1000 ∧
      pNext waveAtStart 1000 ≤ pWaveMaxRadius) ∧
    (waveAtStart.sWaveRadius ≤ sNext waveAtStart 1000 ∧
      sNext waveAtStart 1000 ≤ sWaveMaxRadius) :=
  ⟨(claimC6_wave_step_invariants stateAnim "E1" 1000 waveAtStart (by decide) (by decide)
      (by decide) (by norm_num [waveAtStart, pWaveMaxRadius_eq]) (by decide)
      (by norm_num [waveAtStart, sWaveMaxRadius_eq])).1,
    (claimC6_wave_step_invariants stateAnim "E1" 1000 waveAtStart (by decide) (by decide)
      (by decide) (by norm_num [waveAtStart, pWaveMaxRadius_eq]) (by decide)
      (by norm_num [waveAtStart, sWaveMaxRadius_eq])).2.1⟩

/-- Claim C8: once both wavefronts have reached their capped radii, the
`animateWaves` step tears the simulation down in that same step: the three
rendered map objects (both wave circles and the epicenter marker) are
removed from the map, the simulation's registry entry is deleted, and the
shared view is reset to its default center and zoom. -/
theorem claimC8_teardown_on_cap (s : EewState) (e : String) (t : ℚ) (w : WaveEntry)
    (h : lookupKey s.waves e = some w)
    (hp : pWaveMaxRadius ≤ w.pWaveRadius + pWaveSpeed_m_s * elapsedSec w t)
    (hq : sWaveMaxRadius ≤ w.sWaveRadius + sWaveSpeed_m_s * elapsedSec w t) :
    lookupKey (animStep s e t).waves e = none ∧
    w.epicenter ∉ (animStep s e t).mapObjects ∧
    w.pWave ∉ (animStep s e t).mapObjects ∧
    w.sWave ∉ (animStep s e t).mapObjects ∧
    (animStep s e t).mapZoom = INITIAL_MAP_ZOOM ∧
    (animStep s e t).mapCenter = INITIAL_MAP_CENTER := by
  have hP : pNext w t = pWaveMaxRadius := by
    unfold pNext stepRadius
    exact min_eq_right hp
  have hQ : sNext w t = sWaveMaxRadius := by
    unfold sNext stepRadius
    exact min_eq_right hq
  have hcond : ¬ (pNext w t < pWaveMaxRadius ∨ sNext w t < sWaveMaxRadius) := by
    rw [hP, hQ]
    simp
  unfold animStep
  rw [h]
  unfold animStepEntry animStepFinish
  simp only [pNext, sNext] at hcond
  cases hfv : w.fitViewTimerC with
  | none =>
    simp only [hfv]
    rw [if_neg hcond]
    exact ⟨lookupKey_eraseKey_self _ _,
      not_mem_removeIds _ (by simp), not_mem_removeIds _ (by simp),
      not_mem_removeIds _ (by simp), rfl, rfl⟩
  | some ft =>
    simp only [hfv]
    rw [if_neg hcond]
    exact ⟨lookupKey_eraseKey_self _ _,
      not_mem_removeIds _ (by simp), not_mem_removeIds _ (by simp),
      not_mem_removeIds _ (by simp), rfl, rfl⟩

/-- Witness for claim C8 at the capped animation of `E1`. -/
theorem claimC8_teardown_on_cap_witness :
    lookupKey (animStep stateAnimEnd "E1" 500).waves "E1" = none ∧
    (animStep stateAnimEnd "E1" 500).mapZoom = INITIAL_MAP_ZOOM :=
  ⟨(claimC8_teardown_on_cap stateAnimEnd "E1" 500 waveAtEnd (by decide)
      (by norm_num [waveAtEnd, waveAtStart, elapsedSec, pWaveSpeed_m_s, pWaveMaxRadius_eq])
      (by norm_num [waveAtEnd, waveAtStart, elapsedSec, sWaveSpeed_m_s, sWaveMaxRadius_eq])).1,
    (claimC8_teardown_on_cap stateAnimEnd "E1" 500 waveAtEnd (by decide)
      (by norm_num [waveAtEnd, waveAtStart, elapsedSec, pWaveSpeed_m_s, pWaveMaxRadius_eq])
      (by norm_num [waveAtEnd, waveAtStart, elapsedSec, sWaveSpeed_m_s, sWaveMaxRadius_eq])).2.2.2.2.1⟩
